import Mathlib

/-!
Verification of the Home Assistant Keybow bridge (`ha_bridge.py`).

The development shallowly embeds the bridge's pure control logic:
the serial line dispatch (`handle_command`), the Home Assistant REST
client wrappers (`get_state`, `call_service`, `toggle`, `is_on`), the
state push (`send_state`, `refresh_states`, `handle_toggle`) and the
supervisor retry loop of `main`.  Remote HTTP calls and the serial
handle are modelled by explicit outcome values; Python exceptions are
modelled with `Except`.
-/

/-- ASCII whitespace characters stripped by Python's `str.strip()`. -/
def pyWhitespace (c : Char) : Bool :=
  c = ' ' || c = '\t' || c = '\n' || c = '\x0d' || c = '\x0b' || c = '\x0c'

/-- Python `str.strip()`: drop leading and trailing whitespace. -/
def pyStrip (s : String) : String :=
  ⟨(((s.toList.dropWhile pyWhitespace).reverse.dropWhile pyWhitespace).reverse)⟩

/-- Digit run accepted by Python `int()`: decimal digits, single
underscores allowed strictly between digits. Returns the value. -/
def parseDigitsU : Nat → List Char → Option Nat
  | acc, [] => some acc
  | acc, '_' :: c :: rest =>
      if c.isDigit then parseDigitsU (acc * 10 + (c.toNat - '0'.toNat)) rest else none
  | acc, c :: rest =>
      if c.isDigit then parseDigitsU (acc * 10 + (c.toNat - '0'.toNat)) rest else none

/-- Python `int(s)` on a decimal string: strips surrounding whitespace,
allows one optional sign, then a nonempty digit run (underscores
between digits).  `none` models the `ValueError` raise. -/
def pyInt (s : String) : Option Int :=
  match (pyStrip s).toList with
  | [] => none
  | '+' :: rest =>
      match rest with
      | [] => none
      | c :: cs => if c.isDigit
          then (parseDigitsU (c.toNat - '0'.toNat) cs).map Int.ofNat
          else none
  | '-' :: rest =>
      match rest with
      | [] => none
      | c :: cs => if c.isDigit
          then (parseDigitsU (c.toNat - '0'.toNat) cs).map (fun n => -(n : Int))
          else none
  | c :: cs => if c.isDigit
      then (parseDigitsU (c.toNat - '0'.toNat) cs).map Int.ofNat
      else none

/-- Does the character list start with the given pattern? -/
def listStartsWith : List Char → List Char → Bool
  | _, [] => true
  | [], _ :: _ => false
  | c :: cs, p :: ps => c = p && listStartsWith cs ps

/-- Python `s.startswith(p)`. -/
def pyStartsWith (s p : String) : Bool :=
  listStartsWith s.toList p.toList

/-- Split a character list on a separator; a list with no separator is
one group, and separators delimit possibly empty groups. -/
def splitOnChar (sep : Char) : List Char → List (List Char)
  | [] => [[]]
  | c :: cs =>
      let r := splitOnChar sep cs
      if c = sep then [] :: r
      else
        match r with
        | [] => [[c]]
        | g :: gs => (c :: g) :: gs

/-- Python `s.split(sep)` for a one-character separator. -/
def pySplit (s : String) (sep : Char) : List String :=
  (splitOnChar sep s.toList).map (fun cs => ⟨cs⟩)

instance {ε α : Type} [DecidableEq ε] [DecidableEq α] : DecidableEq (Except ε α) := fun x y =>
  match x, y with
  | .ok a, .ok b =>
      if h : a = b then .isTrue (h ▸ rfl) else .isFalse (fun c => h (Except.ok.inj c))
  | .error a, .error b =>
      if h : a = b then .isTrue (h ▸ rfl) else .isFalse (fun c => h (Except.error.inj c))
  | .ok _, .error _ => .isFalse (fun c => Except.noConfusion c)
  | .error _, .ok _ => .isFalse (fun c => Except.noConfusion c)

/-- The commands distinguished by `KeybowBridge.handle_command`'s
branches, reified as a tagged variant. -/
inductive Command where
  | ready : Command
  | heartbeat : Command
  | toggleKey (n : Int) : Command
  | debug (raw : String) : Command
  | errLine (raw : String) : Command
  | unknown (raw : String) : Command
deriving Repr, DecidableEq

/-- The Python exceptions that can escape `handle_command`. -/
inductive SessionSignal where
  | restartRequested (msg : String) : SessionSignal
  | valueError (msg : String) : SessionSignal
  | indexError : SessionSignal
deriving Repr, DecidableEq

/-- Classification of one stripped line, following the branch order of
`KeybowBridge.handle_command`: exact `READY`, exact `HEARTBEAT`, prefix
`TOGGLE:` (whose suffix goes through Python `int()`, raising
`ValueError` on a non-integer), prefix `DEBUG:`/`ERROR:`, and a final
fall-through that only logs. -/
def parseCommand (command : String) : Except SessionSignal Command :=
  if command = "READY" then .ok .ready
  else if command = "HEARTBEAT" then .ok .heartbeat
  else if pyStartsWith command "TOGGLE:" then
    match (pySplit command ':').get? 1 with
    | none => .error .indexError
    | some suffix =>
        match pyInt suffix with
        | none => .error (.valueError suffix)
        | some n => .ok (.toggleKey n)
  else if pyStartsWith command "DEBUG:" || pyStartsWith command "ERROR:" then
    if pyStartsWith command "DEBUG:" then .ok (.debug command) else .ok (.errLine command)
  else .ok (.unknown command)

/-- Outcome of one `requests.Session.get` on `/api/states/{entity_id}`:
either the request raised (timeout, transport error), or a response
arrived with a status code and a body.  `body = none` models a body
that is not JSON, so `response.json()` raises; `body = some kvs`
models a JSON object with string fields. -/
inductive HttpGetOutcome where
  | exn (msg : String) : HttpGetOutcome
  | resp (status : Nat) (body : Option (List (String × String))) : HttpGetOutcome
deriving Repr, DecidableEq

/-- Outcome of one `requests.Session.post` on a service endpoint. -/
inductive HttpPostOutcome where
  | exn (msg : String) : HttpPostOutcome
  | resp (status : Nat) : HttpPostOutcome
deriving Repr, DecidableEq

/-- The remote Home Assistant instance as seen through the two HTTP
calls the client makes: `get e` is the outcome of `GET /api/states/e`,
`post d s e` the outcome of `POST /api/services/d/s` with entity `e`. -/
structure HomeAssistant where
  get : String → HttpGetOutcome
  post : String → String → String → HttpPostOutcome

/-- The fallible body of `HomeAssistant.get_state` before the
`except` clause: the HTTP get may raise, and on a 200 response
`response.json()` may raise; otherwise the `state` field is looked up
with `.get("state")` (which yields `None` when absent). -/
def get_state_try (ha : HomeAssistant) (entity_id : String) : Except String (Option String) :=
  match ha.get entity_id with
  | .exn m => .error m
  | .resp status body =>
      if status = 200 then
        match body with
        | none => .error "JSONDecodeError"
        | some j => .ok (j.lookup "state")
      else .ok none

/-- `HomeAssistant.get_state`: the body with its `except Exception`
clause, which logs and falls through to `return None`. -/
def get_state (ha : HomeAssistant) (entity_id : String) : Option String :=
  match get_state_try ha entity_id with
  | .ok v => v
  | .error _ => none

/-- `HomeAssistant.call_service`: true iff the POST returned 200;
any raised exception is caught and yields false. -/
def call_service (ha : HomeAssistant) (domain service entity_id : String) : Bool :=
  match ha.post domain service entity_id with
  | .exn _ => false
  | .resp status => status = 200

/-- `HomeAssistant.toggle`: the domain is the entity identifier's text
before the first `.`; domains `scene` and `script` use `turn_on`,
everything else `toggle`. -/
def ha_toggle (ha : HomeAssistant) (entity_id : String) : Bool :=
  let domain := ((pySplit entity_id '.').get? 0).getD ""
  let service := if domain = "scene" || domain = "script" then "turn_on" else "toggle"
  call_service ha domain service entity_id

/-- `HomeAssistant.is_on`: the queried state compared against `"on"`;
a failed query (`None`) compares unequal and yields false. -/
def is_on (ha : HomeAssistant) (entity_id : String) : Bool :=
  get_state ha entity_id = some "on"

/-- Did the remote state query fail in one of the modes the spec
lists: the request raised, the response was not 200, the body was not
JSON, or the JSON object misses the `state` field? -/
def get_failure (o : HttpGetOutcome) : Bool :=
  match o with
  | .exn _ => true
  | .resp status body =>
      if status = 200 then
        match body with
        | none => true
        | some j => (j.lookup "state").isNone
      else true

/-- The serial handle `self.ser` once constructed: whether the port is
open, and whether a `write` on it raises. -/
structure Serial where
  is_open : Bool
  write_fails : Bool
deriving Repr, DecidableEq

/-- The fallible `ser.write`/`ser.flush` pair inside `send_state`:
returns the line written, or raises. -/
def serial_write (s : Serial) (line : String) : Except String (List String) :=
  if s.write_fails then .error "write timeout" else .ok [line]

/-- `KeybowBridge.send_state` with its exception behaviour explicit:
if there is no handle or the port is not open, nothing is written; a
raised write error is caught and logged.  The `.ok` payload is the
list of lines actually written to the device. -/
def send_state_exc (ser : Option Serial) (key_num : Int) (state : String) :
    Except String (List String) :=
  match ser with
  | none => .ok []
  | some s =>
      if s.is_open then
        match serial_write s ("STATE:" ++ toString key_num ++ ":" ++ state ++ "\n") with
        | .ok ls => .ok ls
        | .error _ => .ok []
      else .ok []

/-- The lines `send_state` writes to the device. -/
def send_state (ser : Option Serial) (key_num : Int) (state : String) : List String :=
  match send_state_exc ser key_num state with
  | .ok ls => ls
  | .error _ => []

/-- `KeybowBridge.refresh_states`: for every mapped key, query the
entity through `is_on` and push the corresponding `STATE:` line.
Returns the lines written to the device, in key order. -/
def refresh_states (ha : HomeAssistant) (ser : Option Serial)
    (entity_map : List (Int × String)) : List String :=
  entity_map.flatMap (fun p =>
    send_state ser p.1 (if is_on ha p.2 then "on" else "off"))

/-- The remote calls an operation performs, in order. -/
inductive RemoteCall where
  | getState (entity_id : String) : RemoteCall
  | callService (domain service entity_id : String) : RemoteCall
deriving Repr, DecidableEq

/-- `KeybowBridge.handle_toggle`: an unmapped key only logs; a mapped
key invokes the toggle service, and on success re-queries the state
and pushes one `STATE:` line.  Returns the remote calls made and the
lines written to the device. -/
def handle_toggle (ha : HomeAssistant) (ser : Option Serial)
    (entity_map : List (Int × String)) (key_num : Int) :
    List RemoteCall × List String :=
  match entity_map.lookup key_num with
  | none => ([], [])
  | some entity_id =>
      let domain := ((pySplit entity_id '.').get? 0).getD ""
      let service := if domain = "scene" || domain = "script" then "turn_on" else "toggle"
      if ha_toggle ha entity_id then
        ([.callService domain service entity_id, .getState entity_id],
         send_state ser key_num (if is_on ha entity_id then "on" else "off"))
      else
        ([.callService domain service entity_id], [])

/-- `KeybowBridge.handle_command` on an already stripped line: the
dispatch over the session's `ready_count` and the entity map.  The
result is the new `ready_count` together with the lines written, or
the exception that escaped (a `RestartRequested` on a second `READY`,
a `ValueError` from `int()` on a malformed `TOGGLE:` suffix). -/
def handle_command (ha : HomeAssistant) (ser : Option Serial)
    (entity_map : List (Int × String)) (ready_count : Nat) (command : String) :
    Except SessionSignal (Nat × List String) :=
  if command = "READY" then
    let rc := ready_count + 1
    if rc > 1 then .error (.restartRequested "Keybow reset button pressed")
    else .ok (rc, refresh_states ha ser entity_map)
  else if command = "HEARTBEAT" then .ok (ready_count, [])
  else if pyStartsWith command "TOGGLE:" then
    match (pySplit command ':').get? 1 with
    | none => .error .indexError
    | some suffix =>
        match pyInt suffix with
        | none => .error (.valueError suffix)
        | some n => .ok (ready_count, (handle_toggle ha ser entity_map n).2)
  else .ok (ready_count, [])

/-- `KeybowBridge.read_serial` on one received raw line: a falsy
(empty) decoded line is ignored, otherwise the line is stripped and
dispatched. -/
def process_line (ha : HomeAssistant) (ser : Option Serial)
    (entity_map : List (Int × String)) (ready_count : Nat) (line : String) :
    Except SessionSignal (Nat × List String) :=
  if line = "" then .ok (ready_count, [])
  else handle_command ha ser entity_map ready_count (pyStrip line)

/-- How one `bridge.run()` ends, as distinguished by `main`'s
`except` clauses: normal return, operator interrupt,
`RestartRequested`, or any other exception. -/
inductive SessionOutcome where
  | normalExit : SessionOutcome
  | keyboardInterrupt : SessionOutcome
  | restartRequested : SessionOutcome
  | failure (msg : String) : SessionOutcome
deriving Repr, DecidableEq

/-- What the supervisor does after one session: leave the loop, sleep
for a delay and run another session, or abort the process. -/
inductive SupDecision where
  | stop : SupDecision
  | restart (delay : Nat) : SupDecision
  | abort (exitCode : Nat) : SupDecision
deriving Repr, DecidableEq

/-- One iteration of `main`'s retry loop after `bridge.run()` ended:
given the configured `MAX_RETRIES` (`none` models Python `None`),
`RETRY_DELAY` and the current `retry_count`, produce the new
`retry_count` and the decision.  `MAX_RETRIES` is tested for
truthiness, so `some 0` behaves like `none`. -/
def supervisor_step (maxRetries : Option Nat) (retryDelay : Nat)
    (retry_count : Nat) (outcome : SessionOutcome) : Nat × SupDecision :=
  match outcome with
  | .normalExit => (retry_count, .stop)
  | .keyboardInterrupt => (retry_count, .stop)
  | .restartRequested => (0, .restart 0)
  | .failure _ =>
      let rc := retry_count + 1
      match maxRetries with
      | some m => if m ≠ 0 ∧ m ≤ rc then (rc, .abort 1) else (rc, .restart retryDelay)
      | none => (rc, .restart retryDelay)

/-- How a supervised run ends: the loop was left cleanly, the process
was aborted via `sys.exit`, or the supplied outcome trace ran out with
the loop still going (carrying the `retry_count` reached). -/
inductive SupResult where
  | stopped : SupResult
  | aborted (exitCode : Nat) : SupResult
  | exhausted (retry_count : Nat) : SupResult
deriving Repr, DecidableEq

/-- Run `main`'s retry loop against a trace of session outcomes:
each list element is how the next constructed session ends.  Returns
the number of sessions run and the final result. -/
def supervise (maxRetries : Option Nat) (retryDelay : Nat)
    (retry_count : Nat) : List SessionOutcome → Nat × SupResult
  | [] => (0, .exhausted retry_count)
  | o :: rest =>
      match supervisor_step maxRetries retryDelay retry_count o with
      | (_, .stop) => (1, .stopped)
      | (_, .abort code) => (1, .aborted code)
      | (rc, .restart _) =>
          let r := supervise maxRetries retryDelay rc rest
          (r.1 + 1, r.2)

/-- A serial handle that is open and writes without error. -/
def serOk : Serial := ⟨true, false⟩

/-- A Home Assistant instance whose every request raises (host down). -/
def haDown : HomeAssistant :=
  ⟨fun _ => .exn "timeout", fun _ _ _ => .exn "timeout"⟩

/-- A Home Assistant instance reporting every entity as on. -/
def haOn : HomeAssistant :=
  ⟨fun _ => .resp 200 (some [("state", "on")]), fun _ _ _ => .resp 200⟩

/-- A Home Assistant instance reporting every entity as off. -/
def haOff : HomeAssistant :=
  ⟨fun _ => .resp 200 (some [("state", "off")]), fun _ _ _ => .resp 200⟩

/-- A Home Assistant instance where service calls succeed but every
state query raises. -/
def haInvokeOkQueryDown : HomeAssistant :=
  ⟨fun _ => .exn "timeout", fun _ _ _ => .resp 200⟩

/-- A Home Assistant instance where every service call returns 500. -/
def haInvokeFail : HomeAssistant :=
  ⟨fun _ => .resp 200 (some [("state", "on")]), fun _ _ _ => .resp 500⟩

theorem get_state_eq_none_of_failure (ha : HomeAssistant) (e : String)
    (h : get_failure (ha.get e) = true) : get_state ha e = none := by
  unfold get_state get_state_try
  unfold get_failure at h
  cases hg : ha.get e with
  | exn m => simp
  | resp status body =>
      rw [hg] at h
      by_cases hs : status = 200
      · subst hs
        cases body with
        | none => simp
        | some j =>
            simp only [if_pos rfl] at h ⊢
            simpa using h
      · simp [hs]

theorem is_on_eq_false_of_failure (ha : HomeAssistant) (e : String)
    (h : get_failure (ha.get e) = true) : is_on ha e = false := by
  unfold is_on
  rw [get_state_eq_none_of_failure ha e h]
  simp

theorem send_state_open_ok (s : Serial) (k : Int) (st : String)
    (ho : s.is_open = true) (hw : s.write_fails = false) :
    send_state (some s) k st = ["STATE:" ++ toString k ++ ":" ++ st ++ "\n"] := by
  cases s
  cases ho
  cases hw
  rfl

theorem listStartsWith_append (p l : List Char) : listStartsWith (p ++ l) p = true := by
  induction p with
  | nil =>
      cases l with
      | nil => rfl
      | cons c cs => rfl
  | cons c cs ih => simp [listStartsWith, ih]

theorem splitOnChar_no_sep (sep : Char) (l : List Char)
    (h : ∀ c ∈ l, ¬ c = sep) : splitOnChar sep l = [l] := by
  induction l with
  | nil => rfl
  | cons c cs ih =>
      have hc : ¬ c = sep := h c (by simp)
      have hcs := ih (fun x hx => h x (by simp [hx]))
      simp [splitOnChar, hc, hcs]

theorem splitOnChar_sep_append (sep : Char) (pre rest : List Char)
    (h : ∀ c ∈ pre, ¬ c = sep) :
    splitOnChar sep (pre ++ sep :: rest) = pre :: splitOnChar sep rest := by
  induction pre with
  | nil => simp [splitOnChar]
  | cons c cs ih =>
      have hc : ¬ c = sep := h c (by simp)
      have hcs := ih (fun x hx => h x (by simp [hx]))
      simp [splitOnChar, hc, hcs]

theorem pySplit_toggle (s : String) (hs : ∀ c ∈ s.toList, ¬ c = ':') :
    pySplit ("TOGGLE:" ++ s) ':' = ["TOGGLE", s] := by
  unfold pySplit
  have hdata : ("TOGGLE:" ++ s).toList = "TOGGLE".toList ++ ':' :: s.toList := by
    cases s with
    | mk l => rfl
  rw [hdata, splitOnChar_sep_append ':' _ _ (by decide), splitOnChar_no_sep ':' _ hs]
  cases s with
  | mk l => rfl

theorem pyStartsWith_toggle (s : String) :
    pyStartsWith ("TOGGLE:" ++ s) "TOGGLE:" = true := by
  unfold pyStartsWith
  have hdata : ("TOGGLE:" ++ s).toList = "TOGGLE:".toList ++ s.toList := by
    cases s with
    | mk l => rfl
  rw [hdata]
  exact listStartsWith_append _ _

/-- C1: the claim is false on the code: `handle_command` parses a
`TOGGLE:` suffix with Python `int()` and no handler, so a non-integer
suffix raises `ValueError` instead of yielding `Unknown(line)`. -/
theorem C1_counterexample :
    parseCommand "TOGGLE:x" = .error (.valueError "x") ∧
    ¬ parseCommand "TOGGLE:x" = .ok (.unknown "TOGGLE:x") := by
  constructor
  · decide
  · decide

/-- C1 amended: a `TOGGLE:` line whose colon-free suffix is a valid
integer yields `Toggle(n)` (in particular `TOGGLE:3` yields
`Toggle(3)`), a trailing carriage return is stripped before dispatch,
and a line matching no branch only logs; but a `TOGGLE:` line whose
suffix is not a valid integer raises `ValueError` out of the dispatch
rather than yielding `Unknown(line)`. -/
theorem C1_amended (s : String) (n : Int)
    (hs : ∀ c ∈ s.toList, ¬ c = ':') (hn : pyInt s = some n) :
    parseCommand ("TOGGLE:" ++ s) = .ok (.toggleKey n) ∧
    parseCommand "TOGGLE:3" = .ok (.toggleKey 3) ∧
    parseCommand "TOGGLE:x" = .error (.valueError "x") ∧
    pyStrip "garbage\x0d" = "garbage" ∧
    parseCommand "garbage" = .ok (.unknown "garbage") ∧
    process_line haOff (some serOk) [(3, "switch.x")] 0 "TOGGLE:3\x0d\n" =
      .ok (0, ["STATE:3:off\n"]) := by
  refine ⟨?_, by decide, by decide, by decide, by decide, by decide⟩
  have hsw := pyStartsWith_toggle s
  have hne1 : ¬ "TOGGLE:" ++ s = "READY" := by
    intro h
    rw [h] at hsw
    exact absurd hsw (by decide)
  have hne2 : ¬ "TOGGLE:" ++ s = "HEARTBEAT" := by
    intro h
    rw [h] at hsw
    exact absurd hsw (by decide)
  unfold parseCommand
  rw [if_neg hne1, if_neg hne2, if_pos hsw, pySplit_toggle s hs]
  simp [hn]

/-- C1 witness: the amended claim at the concrete suffix `3`. -/
theorem C1_amended_witness :
    (∀ c ∈ "3".toList, ¬ c = ':') ∧ pyInt "3" = some 3 ∧
    parseCommand ("TOGGLE:" ++ "3") = .ok (.toggleKey 3) := by
  refine ⟨by decide, by decide, ?_⟩
  exact (C1_amended "3" 3 (by decide) (by decide)).1


/-- C2: the claim is false on the code: `is_on` compares the queried
state against `"on"`, so a failed query yields `False` exactly as an
off entity does, and after a successful toggle with a failed re-query
the bridge reports `off` to the device. -/
theorem C2_counterexample :
    get_failure (haInvokeOkQueryDown.get "switch.x") = true ∧
    get_state haInvokeOkQueryDown "switch.x" = none ∧
    handle_toggle haInvokeOkQueryDown (some serOk) [(3, "switch.x")] 3 =
      ([.callService "switch" "toggle" "switch.x", .getState "switch.x"],
       ["STATE:3:off\n"]) := by
  refine ⟨by decide, by decide, by decide⟩

/-- C2 amended: when the remote state query fails, `get_state` itself
reports `None`, distinct from `"off"`; but `is_on` collapses that
`None` to `False`, the same boolean an off entity produces, so the
operations built on `is_on` treat a failed query as if the entity
were off. -/
theorem C2_amended (ha : HomeAssistant) (e : String)
    (h : get_failure (ha.get e) = true) :
    get_state ha e = none ∧
    ¬ get_state ha e = some "off" ∧
    is_on ha e = false ∧
    is_on ha e = is_on haOff e := by
  have hn := get_state_eq_none_of_failure ha e h
  have hf := is_on_eq_false_of_failure ha e h
  refine ⟨hn, by rw [hn]; exact fun c => Option.noConfusion c, hf, ?_⟩
  rw [hf]
  rfl

/-- C2 witness: the amended claim against an unreachable remote. -/
theorem C2_amended_witness :
    get_failure (haDown.get "switch.x") = true ∧
    get_state haDown "switch.x" = none := by
  refine ⟨by decide, ?_⟩
  exact (C2_amended haDown "switch.x" (by decide)).1

/-- C3: the claim is false on the code: during the `refresh_states`
pass a mapped key whose remote query fails is not skipped — `is_on`
absorbs the failure and returns `False`, so a `STATE:<k>:off` line is
sent for that key. -/
theorem C3_counterexample :
    get_failure (haDown.get "switch.x") = true ∧
    refresh_states haDown (some serOk) [(3, "switch.x")] = ["STATE:3:off\n"] := by
  refine ⟨by decide, by decide⟩

/-- C3 amended: during the reconciliation pass a mapped key whose
remote query fails still gets a `STATE:<k>:off` line (the per-key
exception handler never fires because `is_on` absorbs the failure),
and the failure is not fatal: the keys before and after it are
processed exactly as if the failing key were absent. -/
theorem C3_amended (ha : HomeAssistant) (s : Serial)
    (pre suf : List (Int × String)) (k : Int) (e : String)
    (ho : s.is_open = true) (hw : s.write_fails = false)
    (h : get_failure (ha.get e) = true) :
    refresh_states ha (some s) (pre ++ (k, e) :: suf) =
      refresh_states ha (some s) pre ++
        ("STATE:" ++ toString k ++ ":off\n") :: refresh_states ha (some s) suf := by
  unfold refresh_states
  rw [List.flatMap_append, List.flatMap_cons]
  have hf := is_on_eq_false_of_failure ha e h
  simp only [hf, if_neg (by simp : ¬ (false = true))]
  rw [send_state_open_ok s k "off" ho hw]
  simp [String.append_assoc]

/-- C3 witness: the amended claim with one failing key between two
mapped keys against an on-reporting remote for the others. -/
theorem C3_amended_witness :
    serOk.is_open = true ∧ serOk.write_fails = false ∧
    get_failure (haDown.get "switch.x") = true ∧
    refresh_states haDown (some serOk) ([(1, "switch.a")] ++ (3, "switch.x") :: [(4, "switch.b")]) =
      refresh_states haDown (some serOk) [(1, "switch.a")] ++
        ("STATE:" ++ toString (3 : Int) ++ ":off\n") ::
          refresh_states haDown (some serOk) [(4, "switch.b")] := by
  refine ⟨rfl, rfl, by decide, ?_⟩
  exact C3_amended haDown serOk [(1, "switch.a")] [(4, "switch.b")] 3 "switch.x" rfl rfl (by decide)

/-- C4: a second `READY` in one session always raises
`RestartRequested` — a signal distinct from a failure — and never runs
a reconciliation pass; the supervisor reacts to that signal by
clearing the retry counter and restarting with zero delay. -/
theorem C4_second_ready_reset (ha : HomeAssistant) (ser : Option Serial)
    (entity_map : List (Int × String)) (rc : Nat) (maxRetries : Option Nat)
    (retryDelay n : Nat) (h : 1 ≤ rc) :
    handle_command ha ser entity_map rc "READY" =
      .error (.restartRequested "Keybow reset button pressed") ∧
    supervisor_step maxRetries retryDelay n .restartRequested = (0, .restart 0) := by
  constructor
  · unfold handle_command
    rw [if_pos rfl, if_pos (by omega : rc + 1 > 1)]
  · rfl

/-- C4 witness: the second `READY` of a session, after one was seen. -/
theorem C4_second_ready_reset_witness :
    1 ≤ 1 ∧
    handle_command haOff (some serOk) [(3, "switch.x")] 1 "READY" =
      .error (.restartRequested "Keybow reset button pressed") := by
  refine ⟨by decide, ?_⟩
  exact (C4_second_ready_reset haOff (some serOk) [(3, "switch.x")] 1 none 5 7 (by decide)).1

/-- C5: the supervisor's retry counter is incremented exactly by
failure outcomes, cleared exactly by the reset signal, untouched by
the stopping outcomes, and the trace [failure, failure, reset,
failure] ends with the counter at 1. -/
theorem C5_retry_counter (maxRetries : Option Nat) (retryDelay rc : Nat) (m : String) :
    (supervisor_step maxRetries retryDelay rc (.failure m)).1 = rc + 1 ∧
    (supervisor_step maxRetries retryDelay rc .restartRequested).1 = 0 ∧
    (supervisor_step maxRetries retryDelay rc .keyboardInterrupt).1 = rc ∧
    (supervisor_step maxRetries retryDelay rc .normalExit).1 = rc ∧
    supervise none retryDelay 0
        [.failure m, .failure m, .restartRequested, .failure m] =
      (4, .exhausted 1) := by
  refine ⟨?_, rfl, rfl, rfl, ?_⟩
  · unfold supervisor_step
    cases maxRetries with
    | none => rfl
    | some mr =>
        by_cases hc : mr ≠ 0 ∧ mr ≤ rc + 1
        · simp [hc]
        · simp [hc]
  · simp [supervise, supervisor_step]

/-- C6: with a configured maximum of 3 retries and every session
failing with connection-lost, the supervisor runs exactly 3 sessions
and then aborts the process with exit status 1; with no maximum
configured, any number N of consecutive failures never aborts. -/
theorem C6_retry_bound (rest : List SessionOutcome) (N retryDelay : Nat) (m : String) :
    supervise (some 3) retryDelay 0 (.failure m :: .failure m :: .failure m :: rest) =
      (3, .aborted 1) ∧
    supervise none retryDelay 0 (List.replicate N (.failure m)) =
      (N, .exhausted N) := by
  constructor
  · simp [supervise, supervisor_step]
  · have key : ∀ (n rc : Nat), supervise none retryDelay rc (List.replicate n (.failure m)) =
        (n, .exhausted (rc + n)) := by
      intro n
      induction n with
      | zero => intro rc; rfl
      | succ k ih =>
          intro rc
          have harith : rc + 1 + k = rc + (k + 1) := by omega
          rw [List.replicate_succ]
          simp only [supervise, supervisor_step]
          rw [ih (rc + 1), harith]
    simpa using key N 0

/-- C7: for every entity and every remote failure mode — the request
raising, a non-200 response, a non-JSON body, or a body missing the
`state` field — `get_state` returns `None` (Unknown); all exceptions
of the fallible body are caught inside `get_state`. -/
theorem C7_get_state_failure (ha : HomeAssistant) (e : String)
    (h : get_failure (ha.get e) = true) :
    get_state ha e = none ∧
    ∀ msg, get_state_try ha e = .error msg → get_state ha e = none := by
  refine ⟨get_state_eq_none_of_failure ha e h, ?_⟩
  intro msg hmsg
  unfold get_state
  rw [hmsg]

/-- C7 witness: a raising remote yields Unknown. -/
theorem C7_get_state_failure_witness :
    get_failure (haDown.get "light.kitchen") = true ∧
    get_state haDown "light.kitchen" = none := by
  refine ⟨by decide, ?_⟩
  exact (C7_get_state_failure haDown "light.kitchen" (by decide)).1

/-- C9: a `Toggle` for a key absent from the entity map performs no
remote call and writes no line to the device. -/
theorem C9_unmapped_toggle_noop (ha : HomeAssistant) (ser : Option Serial)
    (entity_map : List (Int × String)) (k : Int)
    (h : entity_map.lookup k = none) :
    handle_toggle ha ser entity_map k = ([], []) := by
  unfold handle_toggle
  rw [h]

/-- C9 witness: key 5 against a map containing only key 3. -/
theorem C9_unmapped_toggle_noop_witness :
    ([(3, "switch.x")] : List (Int × String)).lookup 5 = none ∧
    handle_toggle haOn (some serOk) [(3, "switch.x")] 5 = ([], []) := by
  refine ⟨by decide, ?_⟩
  exact C9_unmapped_toggle_noop haOn (some serOk) [(3, "switch.x")] 5 (by decide)

/-- C10: `send_state` never lets an exception escape: the write is the
only fallible step and its error is caught, an absent or closed handle
drops the line silently, and a failing write drops the line after
logging. -/
theorem C10_send_state_total (ser : Option Serial) (k : Int) (st : String) :
    send_state_exc ser k st = .ok (send_state ser k st) ∧
    send_state none k st = [] ∧
    (∀ w : Bool, send_state (some ⟨false, w⟩) k st = []) ∧
    (∀ o : Bool, send_state (some ⟨o, true⟩) k st = []) := by
  refine ⟨?_, rfl, fun w => rfl, fun o => ?_⟩
  · cases ser with
    | none => rfl
    | some s =>
        cases s with
        | mk o w =>
            cases o with
            | false => rfl
            | true =>
                cases w with
                | false => rfl
                | true => rfl
  · cases o with
    | false => rfl
    | true => rfl

/-- C8: a `Toggle` for a mapped key whose service invoke succeeds
emits exactly one `STATE:<k>:<on|off>` line, on iff the re-queried
post-invoke state is on; a failed invoke emits no line for the key. -/
theorem C8_toggle_state_line (ha : HomeAssistant) (s : Serial)
    (entity_map : List (Int × String)) (k : Int) (e : String)
    (hm : entity_map.lookup k = some e)
    (ho : s.is_open = true) (hw : s.write_fails = false) :
    (ha_toggle ha e = true →
      (handle_toggle ha (some s) entity_map k).2 =
        ["STATE:" ++ toString k ++ ":" ++ (if is_on ha e then "on" else "off") ++ "\n"]) ∧
    (ha_toggle ha e = false →
      (handle_toggle ha (some s) entity_map k).2 = []) := by
  constructor
  · intro ht
    simp only [handle_toggle, hm, ht, if_true]
    rw [send_state_open_ok s k _ ho hw]
  · intro ht
    simp only [handle_toggle, hm, ht]
    simp

/-- C8 witness: a mapped key with a succeeding invoke emits one line
reflecting the re-queried on state, and with a failing invoke emits
none. -/
theorem C8_toggle_state_line_witness :
    ([(3, "switch.x")] : List (Int × String)).lookup 3 = some "switch.x" ∧
    serOk.is_open = true ∧ serOk.write_fails = false ∧
    ha_toggle haOn "switch.x" = true ∧
    (handle_toggle haOn (some serOk) [(3, "switch.x")] 3).2 = ["STATE:3:on\n"] ∧
    ha_toggle haInvokeFail "switch.x" = false ∧
    (handle_toggle haInvokeFail (some serOk) [(3, "switch.x")] 3).2 = [] := by
  refine ⟨by decide, rfl, rfl, by decide, ?_, by decide, ?_⟩
  · have h := (C8_toggle_state_line haOn serOk [(3, "switch.x")] 3 "switch.x"
      (by decide) rfl rfl).1 (by decide)
    rw [h]
    decide
  · exact (C8_toggle_state_line haInvokeFail serOk [(3, "switch.x")] 3 "switch.x"
      (by decide) rfl rfl).2 (by decide)
